import Mathlib

/-!
Verification development for the clinical-trials data-scraper repository.

The Python sources are shallowly embedded: pure functions become Lean
functions, raw JSON payloads become an inductive `Json` type, Python
exceptions become `Except PyErr`, and `None`-returning fallible code
becomes `Option`.  Character classes of Python's `_strptime` regexes are
modelled over ASCII digits (the upstream registry serves ASCII dates).
-/

namespace DataScraper

/-! ## Python string primitives -/

/-- Numeric value of an ASCII digit character. -/
def dval (c : Char) : Nat := c.toNat - 48

/-- ASCII digit test (the character class matched by the date regexes). -/
def isDig (c : Char) : Bool := decide (48 ≤ c.toNat) && decide (c.toNat ≤ 57)

/-- Auxiliary for substring containment: list-prefix test. -/
def isPrefixL : List Char → List Char → Bool
  | [], _ => true
  | _ :: _, [] => false
  | a :: as, b :: bs => a == b && isPrefixL as bs

/-- Auxiliary for substring containment: does `needle` occur inside `hay`? -/
def containsSub (needle : List Char) : List Char → Bool
  | [] => isPrefixL needle []
  | c :: rest => isPrefixL needle (c :: rest) || containsSub needle rest

/-- Model of Python's `needle in hay` on strings. -/
def py_in (needle hay : String) : Bool := containsSub needle.data hay.data

/-- Model of Python's `str.upper` (ASCII). -/
def pyUpper (s : String) : String := String.mk (s.data.map Char.toUpper)

/-- Model of Python's `str.lower` (ASCII). -/
def pyLower (s : String) : String := String.mk (s.data.map Char.toLower)

/-- Python truthiness of a string: nonempty. -/
def pyStrTruthy (s : String) : Bool := !(s == "")

/-! ## Datetime values

`datetime.strptime` with the formats used by the scraper always yields a
midnight time, so a datetime is represented by its date components. -/

structure PyDateTime where
  year : Nat
  month : Nat
  day : Nat
deriving DecidableEq

/-- Gregorian leap-year rule (as used by Python's `datetime`). -/
def isLeap (y : Nat) : Bool := (y % 4 == 0 && y % 100 != 0) || y % 400 == 0

/-- Days in a month; arguments outside 1..12 do not occur. -/
def daysInMonth (y m : Nat) : Nat :=
  if m = 2 then (if isLeap y then 29 else 28)
  else if m = 4 || m = 6 || m = 9 || m = 11 then 30
  else 31

/-- Zero-pad a number to two digits. -/
def pad2 (n : Nat) : String := if n < 10 then "0" ++ toString n else toString n

/-- Zero-pad a number to four digits. -/
def pad4 (n : Nat) : String :=
  if n < 10 then "000" ++ toString n
  else if n < 100 then "00" ++ toString n
  else if n < 1000 then "0" ++ toString n
  else toString n

/-- Model of `datetime.isoformat()` for the midnight datetimes produced here. -/
def isoformat (d : PyDateTime) : String :=
  pad4 d.year ++ "-" ++ pad2 d.month ++ "-" ++ pad2 d.day ++ "T00:00:00"

/-- Lexicographic (chronological) strict order on datetimes. -/
def dateLt (a b : PyDateTime) : Bool :=
  decide (a.year < b.year) ||
  (decide (a.year = b.year) &&
    (decide (a.month < b.month) ||
      (decide (a.month = b.month) && decide (a.day < b.day))))

/-- Model of Python's `min` over a list of datetimes (`none` on empty). -/
def listMin : List PyDateTime → Option PyDateTime
  | [] => none
  | d :: rest => some (rest.foldl (fun acc x => if dateLt x acc then x else acc) d)

/-- Model of Python's `max` over a list of datetimes (`none` on empty). -/
def listMax : List PyDateTime → Option PyDateTime
  | [] => none
  | d :: rest => some (rest.foldl (fun acc x => if dateLt acc x then x else acc) d)

/-! ## The tolerant date parser `_parse_date`

`datetime.strptime` is tried with formats `%Y-%m-%d`, `%Y-%m`, `%Y` in that
order; a `ValueError` falls through to the next format.  CPython's
`_strptime` compiles `%Y` to four digits, `%m` to `1[0-2]|0[1-9]|[1-9]` and
`%d` to `3[01]|[12]\d|0[1-9]|[1-9]`, requires the whole input to be
consumed, and then `datetime(year, month, day)` additionally checks
`year >= 1` and that the day exists in the month. -/

/-- Consume exactly four digits (the `%Y` directive). -/
def read4 : List Char → Option (Nat × List Char)
  | a :: b :: c :: d :: rest =>
    if isDig a && isDig b && isDig c && isDig d then
      some (1000 * dval a + 100 * dval b + 10 * dval c + dval d, rest)
    else none
  | _ => none

/-- Consume a month (the `%m` directive, ordered alternation of the regex). -/
def read_m : List Char → Option (Nat × List Char)
  | [] => none
  | [a] => if isDig a && decide (1 ≤ dval a) then some (dval a, []) else none
  | a :: b :: rest =>
    if isDig a && isDig b && decide (dval a = 1) && decide (dval b ≤ 2) then
      some (10 + dval b, rest)
    else if isDig a && isDig b && decide (dval a = 0) && decide (1 ≤ dval b) then
      some (dval b, rest)
    else if isDig a && decide (1 ≤ dval a) then some (dval a, b :: rest)
    else none

/-- Consume a day (the `%d` directive, ordered alternation of the regex). -/
def read_d : List Char → Option (Nat × List Char)
  | [] => none
  | [a] => if isDig a && decide (1 ≤ dval a) then some (dval a, []) else none
  | a :: b :: rest =>
    if isDig a && isDig b && decide (dval a = 3) && decide (dval b ≤ 1) then
      some (30 + dval b, rest)
    else if isDig a && isDig b && decide (1 ≤ dval a) && decide (dval a ≤ 2) then
      some (10 * dval a + dval b, rest)
    else if isDig a && isDig b && decide (dval a = 0) && decide (1 ≤ dval b) then
      some (dval b, rest)
    else if isDig a && decide (1 ≤ dval a) then some (dval a, b :: rest)
    else none

/-- `strptime(s, "%Y")`: whole input is a four-digit year of a constructible
datetime (month and day default to 1). -/
def strptime_Y (cs : List Char) : Option PyDateTime :=
  match read4 cs with
  | some (y, []) => if 1 ≤ y then some ⟨y, 1, 1⟩ else none
  | _ => none

/-- `strptime(s, "%Y-%m")` (day defaults to 1). -/
def strptime_Y_m (cs : List Char) : Option PyDateTime :=
  match read4 cs with
  | some (y, '-' :: r1) =>
    (match read_m r1 with
     | some (m, []) => if 1 ≤ y then some ⟨y, m, 1⟩ else none
     | _ => none)
  | _ => none

/-- `strptime(s, "%Y-%m-%d")`, including the calendar-validity check made by
the `datetime` constructor. -/
def strptime_Y_m_d (cs : List Char) : Option PyDateTime :=
  match read4 cs with
  | some (y, '-' :: r1) =>
    (match read_m r1 with
     | some (m, '-' :: r2) =>
       (match read_d r2 with
        | some (d, []) =>
          if 1 ≤ y && decide (d ≤ daysInMonth y m) then some ⟨y, m, d⟩ else none
        | _ => none)
     | _ => none)
  | _ => none

/-! ## Raw JSON payloads and Python exceptions -/

/-- A raw JSON value, as delivered by the registry API. -/
inductive Json where
  | null : Json
  | bool : Bool → Json
  | num : Int → Json
  | str : String → Json
  | arr : List Json → Json
  | obj : List (String × Json) → Json

/-- The kinds of Python exceptions the normalizer can encounter.  Distinct
exception values are never observed downstream (they all collapse to "no
trial"), so the classification is coarse. -/
inductive PyErr where
  | attributeError : PyErr
  | typeError : PyErr
  | validationError : PyErr
deriving DecidableEq

/-- First value bound to a key in a JSON object (Python dict keys are
unique; association-list lookup models them). -/
def jsonLookup : List (String × Json) → String → Option Json
  | [], _ => none
  | (k, v) :: rest, key => if k == key then some v else jsonLookup rest key

/-- Model of Python's `x.get(key, default)`: on a dict it returns the stored
value (even `None`) or the default; on any non-dict it raises
`AttributeError`. -/
def pyGet (j : Json) (key : String) (default : Json) : Except PyErr Json :=
  match j with
  | .obj fields => .ok ((jsonLookup fields key).getD default)
  | _ => .error .attributeError

/-- Model of Python iteration: lists yield elements, strings yield their
characters (as one-character strings), dicts yield their keys; other values
raise `TypeError`. -/
def pyIter (j : Json) : Except PyErr (List Json) :=
  match j with
  | .arr xs => .ok xs
  | .str s => .ok (s.data.map (fun c => Json.str (String.singleton c)))
  | .obj fields => .ok (fields.map (fun p => Json.str p.1))
  | _ => .error .typeError

/-- A value destined for a `str`-typed model field: pydantic validation
rejects non-strings when the Trial is constructed. -/
def validateStr (j : Json) : Except PyErr String :=
  match j with
  | .str s => .ok s
  | _ => .error .validationError

/-- A value destined for an `Optional[str]` model field. -/
def optStr (j : Json) : Except PyErr (Option String) :=
  match j with
  | .null => .ok none
  | .str s => .ok (some s)
  | _ => .error .validationError

/-- Python truthiness of a JSON value. -/
def jsonTruthy (j : Json) : Bool :=
  match j with
  | .null => false
  | .bool b => b
  | .num n => !(n == 0)
  | .str s => !(s == "")
  | .arr xs => !xs.isEmpty
  | .obj fields => !fields.isEmpty

/-- `_parse_date`: falsy input (`None` or `""`) yields `None`; a string is
tried against the three formats in order, `ValueError` falling through; a
truthy non-string raises `TypeError` inside `strptime`, which the trailing
`except Exception: pass` also turns into `None`.  The function never lets
an exception escape. -/
def _parse_date (j : Json) : Option PyDateTime :=
  match j with
  | .str s =>
    if s == "" then none
    else
      match strptime_Y_m_d s.data with
      | some dt => some dt
      | none =>
        match strptime_Y_m s.data with
        | some dt => some dt
        | none => strptime_Y s.data
  | _ => none

/-! ## Declarative date-string shapes

`spec_date_form` renders the spec's words: one of the three zero-padded
forms `YYYY`, `YYYY-MM`, `YYYY-MM-DD` denoting a valid date.
`lenient_date_form` is the declarative description of what the code's
parser actually accepts (months and days may also be unpadded single
digits). -/

/-- Value of a digit string read in base 10. -/
def digitsVal (cs : List Char) : Nat := cs.foldl (fun acc c => 10 * acc + dval c) 0

/-- Split a character list on `'-'` (every occurrence, keeping empties). -/
def splitDash : List Char → List (List Char)
  | [] => [[]]
  | c :: rest =>
    if c = '-' then [] :: splitDash rest
    else
      match splitDash rest with
      | [] => [[c]]
      | g :: gs => (c :: g) :: gs

/-- A four-digit year component. -/
def year_token (cs : List Char) : Bool := decide (cs.length = 4) && cs.all isDig

/-- A month component as the parser's regex accepts it: one or two digits,
value 1..12. -/
def month_token (cs : List Char) : Bool :=
  cs.all isDig && (decide (cs.length = 1) || decide (cs.length = 2)) &&
    decide (1 ≤ digitsVal cs) && decide (digitsVal cs ≤ 12)

/-- A day component as the parser's regex accepts it: one or two digits,
value 1..31. -/
def day_token (cs : List Char) : Bool :=
  cs.all isDig && (decide (cs.length = 1) || decide (cs.length = 2)) &&
    decide (1 ≤ digitsVal cs) && decide (digitsVal cs ≤ 31)

/-- The claim's notion of a valid date string: exactly `YYYY`, `YYYY-MM` or
`YYYY-MM-DD` (two-digit month/day) denoting a valid calendar date. -/
def spec_date_form (s : String) : Bool :=
  match splitDash s.data with
  | [y] => year_token y && decide (1 ≤ digitsVal y)
  | [y, m] =>
    year_token y && decide (1 ≤ digitsVal y) &&
      (m.all isDig && decide (m.length = 2)) &&
      decide (1 ≤ digitsVal m) && decide (digitsVal m ≤ 12)
  | [y, m, d] =>
    year_token y && decide (1 ≤ digitsVal y) &&
      (m.all isDig && decide (m.length = 2)) &&
      decide (1 ≤ digitsVal m) && decide (digitsVal m ≤ 12) &&
      (d.all isDig && decide (d.length = 2)) &&
      decide (1 ≤ digitsVal d) &&
      decide (digitsVal d ≤ daysInMonth (digitsVal y) (digitsVal m))
  | _ => false

/-- The shape of strings the parser actually accepts: a year, optionally a
month, optionally a day, separated by dashes, with unpadded single digits
allowed for month and day. -/
def lenient_date_form (s : String) : Bool :=
  match splitDash s.data with
  | [y] => year_token y && decide (1 ≤ digitsVal y)
  | [y, m] => year_token y && decide (1 ≤ digitsVal y) && month_token m
  | [y, m, d] =>
    year_token y && decide (1 ≤ digitsVal y) && month_token m && day_token d &&
      decide (digitsVal d ≤ daysInMonth (digitsVal y) (digitsVal m))
  | _ => false

/-! ## Domain model (`models.py`) -/

/-- Medical condition being studied. -/
structure Condition where
  name : String
  description : Option String := none
deriving DecidableEq

/-- Intervention or treatment information. -/
structure Intervention where
  name : String
  type : String
  description : Option String := none
deriving DecidableEq

/-- Study sponsor information. -/
structure Sponsor where
  name : String
  type : String
deriving DecidableEq

/-- Study location information. -/
structure Location where
  facility : String
  city : String
  state : Option String := none
  country : String
deriving DecidableEq

/-- Complete clinical trial information (the `phases : List[PhaseInfo]` field
is never populated anywhere in the repository and is omitted). -/
structure ClinicalTrial where
  nct_id : String
  brief_title : String
  official_title : String
  status : String
  current_phase : Option String := none
  start_date : Option PyDateTime := none
  completion_date : Option PyDateTime := none
  primary_completion_date : Option PyDateTime := none
  conditions : List Condition := []
  interventions : List Intervention := []
  sponsors : List Sponsor := []
  locations : List Location := []
  study_type : String := "INTERVENTIONAL"
  enrollment : Option Nat := none
  study_population : Option String := none
  raw_data : Option Json := none

/-! ## Response normalizer (`clinical_trials_api.py`) -/

/-- The fields `_parse_single_trial` extracts before constructing the
`ClinicalTrial`.  Pydantic's rejection of ill-typed values at construction
time is modelled by validating each value where it is extracted; this only
reorders which exception fires first, which is unobservable since every
exception collapses to "no trial". -/
structure TrialFields where
  nct_id : String
  brief_title : String
  official_title : String
  status : String
  current_phase : Option String
  start_date : Option PyDateTime
  completion_date : Option PyDateTime
  primary_completion_date : Option PyDateTime
  conditions : List Condition
  interventions : List Intervention
  sponsors : List Sponsor
  locations : List Location

/-- `', '.join(phases) if phases else None`, including the `TypeError` a
non-iterable raises and pydantic's rejection of non-string elements. -/
def joined_phases (phases : Json) : Except PyErr (Option String) :=
  if jsonTruthy phases then do
    let elems ← pyIter phases
    let strs ← elems.mapM validateStr
    pure (some (String.intercalate ", " strs))
  else pure none

/-- The `if lead_sponsor:` block building the single-element sponsor list. -/
def lead_sponsor_list (lead_sponsor : Json) : Except PyErr (List Sponsor) :=
  if jsonTruthy lead_sponsor then do
    let n ← validateStr (← pyGet lead_sponsor "name" (.str ""))
    let ty ← validateStr (← pyGet lead_sponsor "class" (.str ""))
    pure [({ name := n, type := ty } : Sponsor)]
  else pure ([] : List Sponsor)

/-- The body of `_parse_single_trial`'s `try` block: field extraction, with
every Python exception surfaced as a `PyErr`. -/
def extractFields (study_data : Json) : Except PyErr TrialFields := do
  let protocol_section ← pyGet study_data "protocolSection" (.obj [])
  let identification_module ← pyGet protocol_section "identificationModule" (.obj [])
  let status_module ← pyGet protocol_section "statusModule" (.obj [])
  let design_module ← pyGet protocol_section "designModule" (.obj [])
  let conditions_module ← pyGet protocol_section "conditionsModule" (.obj [])
  let interventions_module ← pyGet protocol_section "interventionsModule" (.obj [])
  let sponsor_collaborators_module ← pyGet protocol_section "sponsorCollaboratorsModule" (.obj [])
  let locations_module ← pyGet protocol_section "locationsModule" (.obj [])
  let nct_id ← validateStr (← pyGet identification_module "nctId" (.str ""))
  let brief_title ← validateStr (← pyGet identification_module "briefTitle" (.str ""))
  let official_title ← validateStr (← pyGet identification_module "officialTitle" (.str ""))
  let status ← validateStr (← pyGet status_module "overallStatus" (.str ""))
  let phases ← pyGet design_module "phases" (.arr [])
  let current_phase ← joined_phases phases
  let start_struct ← pyGet status_module "startDateStruct" (.obj [])
  let start_raw ← pyGet start_struct "date" .null
  let completion_struct ← pyGet status_module "completionDateStruct" (.obj [])
  let completion_raw ← pyGet completion_struct "date" .null
  let primary_struct ← pyGet status_module "primaryCompletionDateStruct" (.obj [])
  let primary_raw ← pyGet primary_struct "date" .null
  let condition_elems ← pyIter (← pyGet conditions_module "conditions" (.arr []))
  let conditions ← condition_elems.mapM (fun c => do
    let n ← validateStr c
    pure ({ name := n, description := none } : Condition))
  let intervention_elems ← pyIter (← pyGet interventions_module "interventions" (.arr []))
  let interventions ← intervention_elems.mapM (fun iv => do
    let n ← validateStr (← pyGet iv "name" (.str ""))
    let ty ← validateStr (← pyGet iv "type" (.str ""))
    let desc ← optStr (← pyGet iv "description" .null)
    pure ({ name := n, type := ty, description := desc } : Intervention))
  let lead_sponsor ← pyGet sponsor_collaborators_module "leadSponsor" (.obj [])
  let sponsors ← lead_sponsor_list lead_sponsor
  let location_elems ← pyIter (← pyGet locations_module "locations" (.arr []))
  let locations ← location_elems.mapM (fun loc => do
    let facility ← pyGet loc "facility" (.obj [])
    let fname ← validateStr (← pyGet facility "name" (.str ""))
    let city ← validateStr (← pyGet facility "city" (.str ""))
    let state ← optStr (← pyGet facility "state" (.str ""))
    let country ← validateStr (← pyGet facility "country" (.str ""))
    pure ({ facility := fname, city := city, state := state, country := country } : Location))
  pure {
    nct_id := nct_id, brief_title := brief_title, official_title := official_title,
    status := status, current_phase := current_phase,
    start_date := _parse_date start_raw,
    completion_date := _parse_date completion_raw,
    primary_completion_date := _parse_date primary_raw,
    conditions := conditions, interventions := interventions,
    sponsors := sponsors, locations := locations }

/-- The `ClinicalTrial(...)` construction at the end of
`_parse_single_trial`: `study_type`, `enrollment` and `study_population`
are not passed and keep their model defaults. -/
def buildTrial (study_data : Json) (f : TrialFields) : ClinicalTrial :=
  { nct_id := f.nct_id, brief_title := f.brief_title,
    official_title := f.official_title, status := f.status,
    current_phase := f.current_phase, start_date := f.start_date,
    completion_date := f.completion_date,
    primary_completion_date := f.primary_completion_date,
    conditions := f.conditions, interventions := f.interventions,
    sponsors := f.sponsors, locations := f.locations,
    study_type := "INTERVENTIONAL", enrollment := none,
    study_population := none, raw_data := some study_data }

/-- `_parse_single_trial`: the surrounding `except Exception` turns every
extraction failure into `None`. -/
def _parse_single_trial (study_data : Json) : Option ClinicalTrial :=
  match extractFields study_data with
  | .ok f => some (buildTrial study_data f)
  | .error _ => none

/-- `_parse_response`: iterate over `response.get('studies', [])`, keeping
the successfully parsed trials; an exception obtaining or iterating the
studies yields the trials accumulated so far (the empty list). -/
def _parse_response (response : Json) : List ClinicalTrial :=
  match pyGet response "studies" (.arr []) with
  | .error _ => []
  | .ok studies =>
    match pyIter studies with
    | .error _ => []
    | .ok l => l.filterMap _parse_single_trial

/-- The raw `nctId` value sitting in a payload (with the defaults the
extraction code uses), for stating what `nct_id` ends up being. -/
def payloadNctId (study_data : Json) : Except PyErr Json := do
  let protocol_section ← pyGet study_data "protocolSection" (.obj [])
  let identification_module ← pyGet protocol_section "identificationModule" (.obj [])
  pyGet identification_module "nctId" (.str "")

/-! ## Interventional classifier (`interventional_trials_processor.py`) -/

/-- The fixed keyword set of the title rule. -/
def title_keywords : List String :=
  ["clinical trial", "intervention", "treatment", "therapy",
   "drug", "medication", "device", "procedure", "surgery",
   "randomized", "controlled", "phase", "dose", "efficacy"]

/-- `_is_interventional_trial`: the four checks in source order, first match
wins. -/
def _is_interventional_trial (trial : ClinicalTrial) : Bool :=
  if pyStrTruthy trial.study_type && py_in "INTERVENTIONAL" (pyUpper trial.study_type) then
    true
  else if !trial.interventions.isEmpty && decide (0 < trial.interventions.length) then
    true
  else if (match trial.current_phase with
           | none => false
           | some p => pyStrTruthy p && !(p == "NA")) then
    true
  else if title_keywords.any (fun keyword =>
      py_in keyword (pyLower (trial.brief_title ++ " " ++ trial.official_title))) then
    true
  else false

/-- The classifier as the claim words it, rule (3) reading "current_phase is
set" as "current_phase is not null". -/
def spec_is_interventional (trial : ClinicalTrial) : Bool :=
  py_in "INTERVENTIONAL" (pyUpper trial.study_type) ||
  !trial.interventions.isEmpty ||
  (trial.current_phase.isSome && !(trial.current_phase == some "NA")) ||
  title_keywords.any (fun keyword =>
    py_in keyword (pyLower (trial.brief_title ++ " " ++ trial.official_title)))

/-- `filter_interventional_trials`: append each trial passing the
classifier, in order. -/
def filter_interventional_trials : List ClinicalTrial → List ClinicalTrial
  | [] => []
  | trial :: rest =>
    if _is_interventional_trial trial then
      trial :: filter_interventional_trials rest
    else filter_interventional_trials rest

/-- Membership of any keyword of `kws` in an intervention-type string,
shared shape of the six category predicates. -/
def type_has_keyword (kws : List String) (trial : ClinicalTrial) : Bool :=
  trial.interventions.any (fun iv => kws.any (fun k => py_in k (pyLower iv.type)))

def _has_drug_intervention (trial : ClinicalTrial) : Bool :=
  type_has_keyword ["drug", "medication", "pharmaceutical", "compound", "agent", "therapy"] trial

def _has_device_intervention (trial : ClinicalTrial) : Bool :=
  type_has_keyword ["device", "equipment", "instrument", "apparatus", "tool"] trial

def _has_procedure_intervention (trial : ClinicalTrial) : Bool :=
  type_has_keyword ["procedure", "surgery", "surgical", "operation", "technique"] trial

def _has_behavioral_intervention (trial : ClinicalTrial) : Bool :=
  type_has_keyword ["behavioral", "behavior", "psychological", "psychotherapy", "counseling", "education"] trial

def _has_biological_intervention (trial : ClinicalTrial) : Bool :=
  type_has_keyword ["biological", "biologic", "vaccine", "immunotherapy", "cell therapy", "gene therapy"] trial

def _has_radiation_intervention (trial : ClinicalTrial) : Bool :=
  type_has_keyword ["radiation", "radiotherapy", "irradiation", "radioactive"] trial

/-! ## Phase-date heuristic engine (`phase_dates_processor.py`) -/

def FAILED_STATUSES : List String := ["TERMINATED", "WITHDRAWN", "SUSPENDED"]

/-- One export row of the phase-dates CSV. -/
structure PhaseDatesRow where
  company : Option String
  product : String
  disorder_or_condition : Option String
  nct_id : String
  phase1_start : Option String
  phase1_end : Option String
  phase1_success : Nat
  phase3_start : Option String
  phase3_end : Option String
  phase3_success : Nat
deriving DecidableEq

/-- The local `phase_success` closure of `_trial_to_rows` (its captured
`trial.status` and `phase_names` passed explicitly). -/
def phase_success (status phase_names target_phase : String) : Nat :=
  if FAILED_STATUSES.contains status then
    if (target_phase == "PHASE1" &&
          (py_in "PHASE2" phase_names || py_in "PHASE3" phase_names ||
           py_in "PHASE4" phase_names)) ||
       (target_phase == "PHASE3" && py_in "PHASE4" phase_names) then 1
    else 0
  else 1

/-- `(trial.current_phase or "").upper()`. -/
def trial_phase_names (trial : ClinicalTrial) : String :=
  pyUpper (trial.current_phase.getD "")

/-- `trial.sponsors[0].name if trial.sponsors else None`. -/
def trial_company (trial : ClinicalTrial) : Option String :=
  trial.sponsors.head?.map Sponsor.name

/-- `", ".join(condition names) if trial.conditions else None`. -/
def trial_conditions_summary (trial : ClinicalTrial) : Option String :=
  if trial.conditions.isEmpty then none
  else some (String.intercalate ", " (trial.conditions.map Condition.name))

/-- `_trial_to_rows`: one row per intervention, or a single productless row. -/
def _trial_to_rows (trial : ClinicalTrial) : List PhaseDatesRow :=
  let phase_names := trial_phase_names trial
  let has_p1 := py_in "PHASE1" phase_names || py_in "EARLY_PHASE1" phase_names
  let has_p3 := py_in "PHASE3" phase_names
  let start_date_iso := trial.start_date.map isoformat
  let end_date_iso :=
    (trial.primary_completion_date.orElse (fun _ => trial.completion_date)).map isoformat
  if !trial.interventions.isEmpty then
    trial.interventions.map (fun intervention =>
      { company := trial_company trial,
        product := intervention.name,
        disorder_or_condition := trial_conditions_summary trial,
        nct_id := trial.nct_id,
        phase1_start := if has_p1 then start_date_iso else none,
        phase1_end := if has_p1 then end_date_iso else none,
        phase1_success := if has_p1 then phase_success trial.status phase_names "PHASE1" else 0,
        phase3_start := if has_p3 then start_date_iso else none,
        phase3_end := if has_p3 then end_date_iso else none,
        phase3_success := if has_p3 then phase_success trial.status phase_names "PHASE3" else 0 })
  else
    [{ company := trial_company trial,
       product := "",
       disorder_or_condition := trial_conditions_summary trial,
       nct_id := trial.nct_id,
       phase1_start := if has_p1 then start_date_iso else none,
       phase1_end := if has_p1 then end_date_iso else none,
       phase1_success := if has_p1 then phase_success trial.status phase_names "PHASE1" else 0,
       phase3_start := if has_p3 then start_date_iso else none,
       phase3_end := if has_p3 then end_date_iso else none,
       phase3_success := if has_p3 then phase_success trial.status phase_names "PHASE3" else 0 }]

/-! ## Summary reports (`data_processor.py`, `interventional_trials_processor.py`) -/

/-- `counts[key] = counts.get(key, 0) + 1` on a dict modelled as an
insertion-ordered association list. -/
def bumpCount (m : List (String × Nat)) (key : String) : List (String × Nat) :=
  if m.any (fun p => p.1 == key) then
    m.map (fun p => if p.1 == key then (p.1, p.2 + 1) else p)
  else m ++ [(key, 1)]

/-- `sorted(items, key=lambda x: x[1], reverse=True)`: stable descending
insertion sort on the count. -/
def insertDesc (x : String × Nat) : List (String × Nat) → List (String × Nat)
  | [] => [x]
  | y :: ys => if x.2 ≤ y.2 then y :: insertDesc x ys else x :: y :: ys

def sortDescByCount (items : List (String × Nat)) : List (String × Nat) :=
  items.foldl (fun acc x => insertDesc x acc) []

/-- The status/phase/sponsor tallies shared by both summary reports. -/
def status_distribution (trials : List ClinicalTrial) : List (String × Nat) :=
  trials.foldl (fun m trial => bumpCount m trial.status) []

def phase_distribution (trials : List ClinicalTrial) : List (String × Nat) :=
  trials.foldl (fun m trial =>
    match trial.current_phase with
    | some cp => if pyStrTruthy cp then (cp.splitOn ", ").foldl bumpCount m else m
    | none => m) []

def sponsor_counts (trials : List ClinicalTrial) : List (String × Nat) :=
  trials.foldl (fun m trial =>
    trial.sponsors.foldl (fun m' sponsor => bumpCount m' sponsor.name) m) []

/-- The `date_range` sub-dictionary of the summary reports. -/
structure DateRange where
  earliest_start : Option String
  latest_start : Option String
  earliest_completion : Option String
  latest_completion : Option String
deriving DecidableEq

def date_range (trials : List ClinicalTrial) : DateRange :=
  let start_dates := trials.filterMap ClinicalTrial.start_date
  let completion_dates := trials.filterMap ClinicalTrial.completion_date
  { earliest_start := (listMin start_dates).map isoformat,
    latest_start := (listMax start_dates).map isoformat,
    earliest_completion := (listMin completion_dates).map isoformat,
    latest_completion := (listMax completion_dates).map isoformat }

/-- The dictionary built by `DataProcessor.create_summary_report` for a
non-empty batch. -/
structure Summary where
  total_trials : Nat
  status_distribution : List (String × Nat)
  phase_distribution : List (String × Nat)
  top_sponsors : List (String × Nat)
  date_range : DateRange

/-- Result of `create_summary_report`: either the `{"error": ...}` dict or
the summary dict. -/
inductive SummaryResult where
  | error : String → SummaryResult
  | report : Summary → SummaryResult

/-- `DataProcessor.create_summary_report`. -/
def create_summary_report (trials : List ClinicalTrial) : SummaryResult :=
  if trials.isEmpty then .error "No trials to summarize"
  else
    .report
      { total_trials := trials.length,
        status_distribution := status_distribution trials,
        phase_distribution := phase_distribution trials,
        top_sponsors := (sortDescByCount (sponsor_counts trials)).take 10,
        date_range := date_range trials }

/-- The `intervention_categories` sub-dictionary. -/
structure InterventionCategories where
  drug : Nat
  device : Nat
  procedure_cat : Nat
  behavioral : Nat
  biological : Nat
  radiation : Nat
deriving DecidableEq

/-- The dictionary built by `create_interventional_summary_report` for a
non-empty batch of interventional trials.  `interventional_percentage` is
kept as an exact rational; the Python code rounds the corresponding
floating-point value to two decimals, which is not modelled. -/
structure InterventionalSummary where
  total_interventional_trials : Nat
  total_all_trials : Nat
  interventional_percentage : ℚ
  status_distribution : List (String × Nat)
  phase_distribution : List (String × Nat)
  intervention_type_distribution : List (String × Nat)
  intervention_categories : InterventionCategories
  top_sponsors : List (String × Nat)
  date_range : DateRange

inductive InterventionalSummaryResult where
  | error : String → InterventionalSummaryResult
  | report : InterventionalSummary → InterventionalSummaryResult

def intervention_type_distribution (trials : List ClinicalTrial) : List (String × Nat) :=
  trials.foldl (fun m trial =>
    trial.interventions.foldl (fun m' iv => bumpCount m' iv.type) m) []

/-- `InterventionalTrialsProcessor.create_interventional_summary_report`. -/
def create_interventional_summary_report (trials : List ClinicalTrial) :
    InterventionalSummaryResult :=
  let interventional_trials := filter_interventional_trials trials
  if interventional_trials.isEmpty then
    .error "No interventional trials to summarize"
  else
    .report
      { total_interventional_trials := interventional_trials.length,
        total_all_trials := trials.length,
        interventional_percentage :=
          if !trials.isEmpty then
            ((interventional_trials.length : ℚ) / (trials.length : ℚ)) * 100
          else 0,
        status_distribution := status_distribution interventional_trials,
        phase_distribution := phase_distribution interventional_trials,
        intervention_type_distribution :=
          intervention_type_distribution interventional_trials,
        intervention_categories :=
          { drug := interventional_trials.countP _has_drug_intervention,
            device := interventional_trials.countP _has_device_intervention,
            procedure_cat := interventional_trials.countP _has_procedure_intervention,
            behavioral := interventional_trials.countP _has_behavioral_intervention,
            biological := interventional_trials.countP _has_biological_intervention,
            radiation := interventional_trials.countP _has_radiation_intervention },
        top_sponsors := (sortDescByCount (sponsor_counts interventional_trials)).take 10,
        date_range := date_range interventional_trials }

/-! ## Concrete fixtures used by counterexamples and witnesses -/

/-- A trial whose `current_phase` is the empty string and which matches no
other classifier rule. -/
def phase_only_trial : ClinicalTrial :=
  { nct_id := "", brief_title := "", official_title := "", status := "",
    current_phase := some "", study_type := "" }

/-- A terminated trial whose label set shows progression beyond Phase 1. -/
def wTrial : ClinicalTrial :=
  { nct_id := "NCT00000001", brief_title := "Phase study", official_title := "",
    status := "TERMINATED", current_phase := some "PHASE1, PHASE2",
    interventions := [{ name := "DrugX", type := "Drug" }] }

/-- The single row `_trial_to_rows` produces for `wTrial`. -/
def wRow : PhaseDatesRow :=
  { company := none, product := "DrugX", disorder_or_condition := none,
    nct_id := "NCT00000001", phase1_start := none, phase1_end := none,
    phase1_success := 1, phase3_start := none, phase3_end := none,
    phase3_success := 0 }

/-- A completed Phase-3 trial with concrete dates. -/
def wTrial3 : ClinicalTrial :=
  { nct_id := "NCT00000003", brief_title := "", official_title := "",
    status := "COMPLETED", current_phase := some "PHASE3",
    start_date := some ⟨2020, 1, 1⟩,
    primary_completion_date := some ⟨2022, 6, 15⟩,
    interventions := [{ name := "DrugX", type := "Drug" }] }

/-- The single row `_trial_to_rows` produces for `wTrial3`. -/
def wRow3 : PhaseDatesRow :=
  { company := none, product := "DrugX", disorder_or_condition := none,
    nct_id := "NCT00000003", phase1_start := none, phase1_end := none,
    phase1_success := 0, phase3_start := some "2020-01-01T00:00:00",
    phase3_end := some "2022-06-15T00:00:00", phase3_success := 1 }

/-! ## Fixtures for the identifier claims -/

/-- A payload carrying a registry identifier and nothing else. -/
def nct_payload : Json :=
  Json.obj [("protocolSection", Json.obj [("identificationModule",
    Json.obj [("nctId", Json.str "NCT11112222")])])]

/-- The trial the normalizer produces from `nct_payload`. -/
def nct_trial : ClinicalTrial :=
  { nct_id := "NCT11112222", brief_title := "", official_title := "",
    status := "", raw_data := some nct_payload }

/-- The trial the normalizer produces from the empty payload. -/
def empty_payload_trial : ClinicalTrial :=
  { nct_id := "", brief_title := "", official_title := "", status := "",
    raw_data := some (Json.obj []) }

/-- Join a group list back with dashes (inverse of `splitDash`). -/
def joinDash : List (List Char) → List Char
  | [] => []
  | [g] => g
  | g :: gs => g ++ '-' :: joinDash gs

/-! ## Sanity checks on concrete inputs -/

example : _parse_date (Json.str "2020-01-15") = some ⟨2020, 1, 15⟩ := by decide
example : _parse_date (Json.str "2020-1") = some ⟨2020, 1, 1⟩ := by decide
example : _parse_date (Json.str "2020-13") = none := by decide
example : _parse_date (Json.str "2021-02-29") = none := by decide
example : _parse_date (Json.str "2020-02-29") = some ⟨2020, 2, 29⟩ := by decide
example : _parse_date (Json.str "0000") = none := by decide
example : _parse_date (Json.str "999") = none := by decide
example : _parse_date (Json.str "2020-01-15x") = none := by decide
example : _parse_date (Json.str "") = none := by decide
example : _parse_date Json.null = none := by decide
example : spec_date_form "2020-01-15" = true := by decide
example : spec_date_form "2020-1" = false := by decide
example : lenient_date_form "2020-1" = true := by decide

example : _trial_to_rows wTrial = [wRow] := by decide
example : _trial_to_rows wTrial3 = [wRow3] := by decide
example : _parse_single_trial nct_payload = some nct_trial := rfl
example : _parse_single_trial (Json.obj []) = some empty_payload_trial := rfl

/-! ## Helper lemmas -/

theorem bool_ite_or (c b : Bool) : (if c then true else b) = (c || b) := by
  cases c <;> simp

theorem bool_ite_id (c : Bool) : (if c then true else false) = c := by
  cases c <;> simp

theorem filter_interventional_eq_filter (trials : List ClinicalTrial) :
    filter_interventional_trials trials = trials.filter _is_interventional_trial := by
  induction trials with
  | nil => rfl
  | cons t rest ih =>
    unfold filter_interventional_trials
    rw [List.filter_cons]
    by_cases h : _is_interventional_trial t <;> simp [h, ih]

theorem orElse_map_iso (o o2 : Option PyDateTime) :
    ((o.orElse fun _ => o2).map isoformat) =
      (match o with
       | some d => some (isoformat d)
       | none => o2.map isoformat) := by
  cases o <;> rfl

/-- All fields of a produced phase-date row except `product`, expressed at
trial level. -/
theorem trial_to_rows_fields {t : ClinicalTrial} {r : PhaseDatesRow}
    (h : r ∈ _trial_to_rows t) :
    r.company = trial_company t ∧
    r.disorder_or_condition = trial_conditions_summary t ∧
    r.nct_id = t.nct_id ∧
    r.phase1_start = (if py_in "PHASE1" (trial_phase_names t) ||
        py_in "EARLY_PHASE1" (trial_phase_names t) then
        t.start_date.map isoformat else none) ∧
    r.phase1_end = (if py_in "PHASE1" (trial_phase_names t) ||
        py_in "EARLY_PHASE1" (trial_phase_names t) then
        ((t.primary_completion_date.orElse fun _ => t.completion_date).map isoformat)
      else none) ∧
    r.phase1_success = (if py_in "PHASE1" (trial_phase_names t) ||
        py_in "EARLY_PHASE1" (trial_phase_names t) then
        phase_success t.status (trial_phase_names t) "PHASE1" else 0) ∧
    r.phase3_start = (if py_in "PHASE3" (trial_phase_names t) then
        t.start_date.map isoformat else none) ∧
    r.phase3_end = (if py_in "PHASE3" (trial_phase_names t) then
        ((t.primary_completion_date.orElse fun _ => t.completion_date).map isoformat)
      else none) ∧
    r.phase3_success = (if py_in "PHASE3" (trial_phase_names t) then
        phase_success t.status (trial_phase_names t) "PHASE3" else 0) := by
  cases hi : t.interventions.isEmpty with
  | true =>
    simp only [_trial_to_rows, hi, Bool.not_true, Bool.false_eq_true, if_false,
      List.mem_singleton] at h
    subst h
    exact ⟨rfl, rfl, rfl, rfl, rfl, rfl, rfl, rfl, rfl⟩
  | false =>
    simp only [_trial_to_rows, hi, Bool.not_false, if_true, List.mem_map] at h
    obtain ⟨iv, hiv, h⟩ := h
    subst h
    exact ⟨rfl, rfl, rfl, rfl, rfl, rfl, rfl, rfl, rfl⟩

theorem phase_success_PHASE1 (status pn : String) :
    phase_success status pn "PHASE1" =
      (if status ∈ FAILED_STATUSES then
         (if py_in "PHASE2" pn || py_in "PHASE3" pn || py_in "PHASE4" pn then 1 else 0)
       else 1) := by
  unfold phase_success
  by_cases h : status ∈ FAILED_STATUSES
  · rw [if_pos h, if_pos (by simpa [List.contains, List.elem_iff] using h)]
    simp [show (("PHASE1" : String) == "PHASE1") = true from rfl,
          show (("PHASE1" : String) == "PHASE3") = false from rfl]
  · rw [if_neg h, if_neg (by simpa [List.contains, List.elem_iff] using h)]

theorem phase_success_PHASE3 (status pn : String) :
    phase_success status pn "PHASE3" =
      (if status ∈ FAILED_STATUSES then (if py_in "PHASE4" pn then 1 else 0) else 1) := by
  unfold phase_success
  by_cases h : status ∈ FAILED_STATUSES
  · rw [if_pos h, if_pos (by simpa [List.contains, List.elem_iff] using h)]
    simp [show (("PHASE3" : String) == "PHASE1") = false from rfl,
          show (("PHASE3" : String) == "PHASE3") = true from rfl]
  · rw [if_neg h, if_neg (by simpa [List.contains, List.elem_iff] using h)]

/-! ## Claim theorems -/

/-- C9: on the empty trial list both summary-report operations return their
explicit error dictionaries; being total Lean functions of the embedding,
they raise nothing. -/
theorem summary_reports_empty_input :
    create_summary_report [] = SummaryResult.error "No trials to summarize" ∧
    create_interventional_summary_report [] =
      InterventionalSummaryResult.error "No interventional trials to summarize" :=
  ⟨rfl, rfl⟩

/-- C6: `filter_interventional_trials` returns an order-preserving
subsequence of its input containing exactly the trials the classifier
accepts. -/
theorem filter_interventional_sublist_and_membership :
    ∀ trials : List ClinicalTrial,
      (filter_interventional_trials trials).Sublist trials ∧
      ∀ t, t ∈ filter_interventional_trials trials ↔
        t ∈ trials ∧ _is_interventional_trial t = true := by
  intro trials
  constructor
  · rw [filter_interventional_eq_filter]
    exact List.filter_sublist trials
  · intro t
    rw [filter_interventional_eq_filter]
    simp [List.mem_filter]

/-- C2 counterexample: a trial whose `current_phase` is set to the empty
string (and which matches no other rule) is rejected by the code's
classifier, while rule (3) of the claim, read with "set" meaning non-null,
accepts it. -/
theorem is_interventional_empty_phase_cex :
    _is_interventional_trial phase_only_trial = false ∧
    spec_is_interventional phase_only_trial = true := ⟨rfl, rfl⟩

/-- C2 amended: the classifier returns true iff one of the four rules
holds, with rule (3) requiring `current_phase` to be a non-empty string
different from "NA"; and whenever the uppercased `study_type` contains
"INTERVENTIONAL" the result is true regardless of every other field. -/
theorem is_interventional_characterization (trial : ClinicalTrial) :
    _is_interventional_trial trial =
      (py_in "INTERVENTIONAL" (pyUpper trial.study_type) ||
       !trial.interventions.isEmpty ||
       (match trial.current_phase with
        | none => false
        | some p => !(p == "") && !(p == "NA")) ||
       title_keywords.any (fun keyword =>
         py_in keyword (pyLower (trial.brief_title ++ " " ++ trial.official_title)))) ∧
    (py_in "INTERVENTIONAL" (pyUpper trial.study_type) = true →
      _is_interventional_trial trial = true) := by
  have h1 : (pyStrTruthy trial.study_type &&
      py_in "INTERVENTIONAL" (pyUpper trial.study_type)) =
      py_in "INTERVENTIONAL" (pyUpper trial.study_type) := by
    by_cases h : trial.study_type = ""
    · rw [h]; rfl
    · have ht : pyStrTruthy trial.study_type = true := by
        simp [pyStrTruthy, h]
      rw [ht, Bool.true_and]
  have h2 : (!trial.interventions.isEmpty &&
      decide (0 < trial.interventions.length)) = !trial.interventions.isEmpty := by
    cases trial.interventions <;> simp
  have h3 : (match trial.current_phase with
             | none => false
             | some p => pyStrTruthy p && !(p == "NA")) =
            (match trial.current_phase with
             | none => false
             | some p => !(p == "") && !(p == "NA")) := by
    cases trial.current_phase <;> simp [pyStrTruthy]
  have heq : _is_interventional_trial trial =
      (py_in "INTERVENTIONAL" (pyUpper trial.study_type) ||
       !trial.interventions.isEmpty ||
       (match trial.current_phase with
        | none => false
        | some p => !(p == "") && !(p == "NA")) ||
       title_keywords.any (fun keyword =>
         py_in keyword (pyLower (trial.brief_title ++ " " ++ trial.official_title)))) := by
    unfold _is_interventional_trial
    rw [bool_ite_or, bool_ite_or, bool_ite_or, bool_ite_id, h1, h2, h3]
    simp only [Bool.or_assoc]
  exact ⟨heq, fun h => by rw [heq, h]; simp⟩

/-- C2 witness: a trial whose `study_type` is the default "INTERVENTIONAL"
is classified interventional by the first rule alone. -/
theorem is_interventional_characterization_witness :
    _is_interventional_trial wTrial = true :=
  (is_interventional_characterization wTrial).2 (by decide)

/-- C7: the normalizer converts every extraction exception into "no trial"
and otherwise yields exactly one trial; a batch response is parsed by
skipping the failing records; the empty payload normalizes successfully
with every field at its empty/absent default. -/
theorem parse_single_trial_resilient :
    (∀ j e, extractFields j = Except.error e → _parse_single_trial j = none) ∧
    (∀ j f, extractFields j = Except.ok f →
      _parse_single_trial j = some (buildTrial j f)) ∧
    (∀ studies : List Json,
      _parse_response (Json.obj [("studies", Json.arr studies)]) =
        studies.filterMap _parse_single_trial) ∧
    _parse_single_trial (Json.obj []) = some
      { nct_id := "", brief_title := "", official_title := "", status := "",
        current_phase := none, start_date := none, completion_date := none,
        primary_completion_date := none, conditions := [], interventions := [],
        sponsors := [], locations := [], study_type := "INTERVENTIONAL",
        enrollment := none, study_population := none,
        raw_data := some (Json.obj []) } := by
  refine ⟨?_, ?_, ?_, ?_⟩
  · intro j e h; simp [_parse_single_trial, h]
  · intro j f h; simp [_parse_single_trial, h]
  · intro studies; rfl
  · rfl

/-- C7 witness: a payload that is not even a JSON object raises inside
extraction and is normalized to "no trial". -/
theorem parse_single_trial_resilient_witness :
    _parse_single_trial (Json.num 0) = none :=
  parse_single_trial_resilient.1 (Json.num 0) PyErr.attributeError rfl

/-- C3: on every produced row, a reached phase's success flag is 1 exactly
when the status is not terminal, or the phase label string shows
progression strictly beyond the phase; an unreached phase's flag is 0. -/
theorem phase_success_flags (t : ClinicalTrial) (r : PhaseDatesRow)
    (h : r ∈ _trial_to_rows t) :
    ((py_in "PHASE1" (trial_phase_names t) ||
      py_in "EARLY_PHASE1" (trial_phase_names t)) = true →
       r.phase1_success =
         (if t.status ∈ FAILED_STATUSES then
            (if py_in "PHASE2" (trial_phase_names t) ||
                py_in "PHASE3" (trial_phase_names t) ||
                py_in "PHASE4" (trial_phase_names t) then 1 else 0)
          else 1)) ∧
    ((py_in "PHASE1" (trial_phase_names t) ||
      py_in "EARLY_PHASE1" (trial_phase_names t)) = false →
       r.phase1_success = 0) ∧
    (py_in "PHASE3" (trial_phase_names t) = true →
       r.phase3_success =
         (if t.status ∈ FAILED_STATUSES then
            (if py_in "PHASE4" (trial_phase_names t) then 1 else 0)
          else 1)) ∧
    (py_in "PHASE3" (trial_phase_names t) = false → r.phase3_success = 0) := by
  obtain ⟨-, -, -, -, -, h6, -, -, h9⟩ := trial_to_rows_fields h
  refine ⟨?_, ?_, ?_, ?_⟩
  · intro hp1; rw [h6, if_pos hp1, phase_success_PHASE1]
  · intro hp1; rw [h6, hp1]; rfl
  · intro hp3; rw [h9, if_pos hp3, phase_success_PHASE3]
  · intro hp3; rw [h9, hp3]; rfl

/-- C3 witness: a TERMINATED trial labelled "PHASE1, PHASE2" gets
`phase1_success = 1` (progression beyond Phase 1) and `phase3_success = 0`
(Phase 3 not reached). -/
theorem phase_success_flags_witness :
    wRow.phase1_success = 1 ∧ wRow.phase3_success = 0 := by
  obtain ⟨h1, -, -, h4⟩ := phase_success_flags wTrial wRow (by decide)
  refine ⟨?_, h4 (by decide)⟩
  rw [h1 (by decide)]
  decide

/-- C4: the products of the produced rows are exactly the intervention
names in order (a single empty product when there are no interventions);
every row carries the trial's identifier, company and condition summary,
and all rows agree on every phase date and success flag. -/
theorem trial_to_rows_product_expansion (t : ClinicalTrial) :
    (_trial_to_rows t).length =
      (if t.interventions.isEmpty then 1 else t.interventions.length) ∧
    (_trial_to_rows t).map PhaseDatesRow.product =
      (if t.interventions.isEmpty then [""] else
        t.interventions.map Intervention.name) ∧
    (∀ r ∈ _trial_to_rows t, r.nct_id = t.nct_id ∧ r.company = trial_company t ∧
      r.disorder_or_condition = trial_conditions_summary t) ∧
    (∀ r1 ∈ _trial_to_rows t, ∀ r2 ∈ _trial_to_rows t,
      r1.phase1_start = r2.phase1_start ∧ r1.phase1_end = r2.phase1_end ∧
      r1.phase1_success = r2.phase1_success ∧ r1.phase3_start = r2.phase3_start ∧
      r1.phase3_end = r2.phase3_end ∧ r1.phase3_success = r2.phase3_success) := by
  refine ⟨?_, ?_, ?_, ?_⟩
  · by_cases hi : t.interventions.isEmpty <;>
      simp [_trial_to_rows, hi]
  · by_cases hi : t.interventions.isEmpty <;>
      simp [_trial_to_rows, hi, List.map_map, Function.comp]
  · intro r hr
    obtain ⟨hc, hd, hn, -, -, -, -, -, -⟩ := trial_to_rows_fields hr
    exact ⟨hn, hc, hd⟩
  · intro r1 h1 r2 h2
    obtain ⟨-, -, -, a4, a5, a6, a7, a8, a9⟩ := trial_to_rows_fields h1
    obtain ⟨-, -, -, b4, b5, b6, b7, b8, b9⟩ := trial_to_rows_fields h2
    rw [a4, a5, a6, a7, a8, a9, b4, b5, b6, b7, b8, b9]
    exact ⟨rfl, rfl, rfl, rfl, rfl, rfl⟩

/-- C4 witness: `wTrial` has one intervention and yields exactly its one
product row. -/
theorem trial_to_rows_product_expansion_witness :
    (_trial_to_rows wTrial).map PhaseDatesRow.product = ["DrugX"] ∧
    wRow.nct_id = wTrial.nct_id := by
  refine ⟨?_, ((trial_to_rows_product_expansion wTrial).2.2.1 wRow (by decide)).1⟩
  rw [(trial_to_rows_product_expansion wTrial).2.1]
  decide

/-- C5: a reached phase's window is the trial's overall start date and its
primary completion date (falling back to the completion date), as ISO
strings; an unreached phase has empty start and end. -/
theorem phase_window_dates (t : ClinicalTrial) (r : PhaseDatesRow)
    (h : r ∈ _trial_to_rows t) :
    ((py_in "PHASE1" (pyUpper (t.current_phase.getD "")) ||
      py_in "EARLY_PHASE1" (pyUpper (t.current_phase.getD ""))) = true →
       r.phase1_start = t.start_date.map isoformat ∧
       r.phase1_end = (match t.primary_completion_date with
                       | some d => some (isoformat d)
                       | none => t.completion_date.map isoformat)) ∧
    ((py_in "PHASE1" (pyUpper (t.current_phase.getD "")) ||
      py_in "EARLY_PHASE1" (pyUpper (t.current_phase.getD ""))) = false →
       r.phase1_start = none ∧ r.phase1_end = none) ∧
    (py_in "PHASE3" (pyUpper (t.current_phase.getD "")) = true →
       r.phase3_start = t.start_date.map isoformat ∧
       r.phase3_end = (match t.primary_completion_date with
                       | some d => some (isoformat d)
                       | none => t.completion_date.map isoformat)) ∧
    (py_in "PHASE3" (pyUpper (t.current_phase.getD "")) = false →
       r.phase3_start = none ∧ r.phase3_end = none) := by
  obtain ⟨-, -, -, h4, h5, -, h7, h8, -⟩ := trial_to_rows_fields h
  have hpn : trial_phase_names t = pyUpper (t.current_phase.getD "") := rfl
  rw [hpn] at h4 h5 h7 h8
  refine ⟨fun hp1 => ⟨?_, ?_⟩, fun hp1 => ⟨?_, ?_⟩, fun hp3 => ⟨?_, ?_⟩,
    fun hp3 => ⟨?_, ?_⟩⟩
  · rw [h4, if_pos hp1]
  · rw [h5, if_pos hp1, orElse_map_iso]
  · rw [h4, hp1]; rfl
  · rw [h5, hp1]; rfl
  · rw [h7, if_pos hp3]
  · rw [h8, if_pos hp3, orElse_map_iso]
  · rw [h7, hp3]; rfl
  · rw [h8, hp3]; rfl

/-- C5 witness: `wTrial3` reaches Phase 3 and its row carries the overall
start and primary completion dates; Phase 1 is not reached and has empty
dates. -/
theorem phase_window_dates_witness :
    wRow3.phase3_start = some "2020-01-01T00:00:00" ∧
    wRow3.phase3_end = some "2022-06-15T00:00:00" ∧
    wRow3.phase1_start = none := by
  obtain ⟨-, hnot, hp3, -⟩ := phase_window_dates wTrial3 wRow3 (by decide)
  obtain ⟨hs, he⟩ := hp3 (by decide)
  exact ⟨by rw [hs]; rfl, by rw [he]; rfl, (hnot (by decide)).1⟩

/-! ## Inversion lemmas for the extraction chain -/

theorem bind_ok_inv {α β : Type} {x : Except PyErr α} {f : α → Except PyErr β}
    {b : β} (h : x >>= f = Except.ok b) :
    ∃ a, x = Except.ok a ∧ f a = Except.ok b := by
  cases x with
  | error e => simp [Bind.bind, Except.bind] at h
  | ok a => exact ⟨a, rfl, by simpa [Bind.bind, Except.bind] using h⟩

theorem validateStr_ok {j : Json} {s : String} (h : validateStr j = Except.ok s) :
    j = Json.str s := by
  cases j <;> simp_all [validateStr]

theorem except_pure_eq_ok {α : Type} (a : α) :
    (pure a : Except PyErr α) = Except.ok a := rfl

theorem except_bind_ok_left {α β : Type} (a : α) (f : α → Except PyErr β) :
    (Except.ok a >>= f) = f a := rfl

theorem interventional_of_study_type {t : ClinicalTrial}
    (h : t.study_type = "INTERVENTIONAL") : _is_interventional_trial t = true := by
  unfold _is_interventional_trial
  rw [h]
  rfl

/-- C8 counterexample: the empty payload normalizes successfully to a trial
whose identifier is the empty string, so a successfully normalized trial's
`nct_id` need not be non-empty. -/
theorem parse_nct_id_cex :
    (_parse_single_trial (Json.obj [])).map ClinicalTrial.nct_id = some "" := rfl

/-- C8 amended: a successfully normalized trial's `nct_id` is exactly the
string stored under `protocolSection.identificationModule.nctId` in the
payload, with the empty string as the default for a missing field — it is
non-empty only when the payload supplies a non-empty identifier. -/
theorem parse_single_trial_nct_id (j : Json) (t : ClinicalTrial)
    (h : _parse_single_trial j = some t) :
    payloadNctId j = Except.ok (Json.str t.nct_id) := by
  unfold _parse_single_trial at h
  cases hx : extractFields j with
  | error e => rw [hx] at h; exact absurd h (by simp)
  | ok f =>
    rw [hx] at h
    simp only [Option.some.injEq] at h
    have hnid : t.nct_id = f.nct_id := by rw [← h]; rfl
    unfold extractFields at hx
    obtain ⟨ps, hps, hx⟩ := bind_ok_inv hx
    obtain ⟨im, him, hx⟩ := bind_ok_inv hx
    obtain ⟨sm, hsm, hx⟩ := bind_ok_inv hx
    obtain ⟨dm, hdm, hx⟩ := bind_ok_inv hx
    obtain ⟨cm, hcm, hx⟩ := bind_ok_inv hx
    obtain ⟨ivm, hivm, hx⟩ := bind_ok_inv hx
    obtain ⟨spm, hspm, hx⟩ := bind_ok_inv hx
    obtain ⟨lm, hlm, hx⟩ := bind_ok_inv hx
    obtain ⟨nidj, hnidj, hx⟩ := bind_ok_inv hx
    obtain ⟨nid, hvnid, hx⟩ := bind_ok_inv hx
    have hfid : f.nct_id = nid := by
      repeat obtain ⟨_, -, hx⟩ := bind_ok_inv hx
      rw [except_pure_eq_ok] at hx
      injection hx with hx
      rw [← hx]
    unfold payloadNctId
    rw [hps]
    simp only [except_bind_ok_left]
    rw [him]
    simp only [except_bind_ok_left]
    rw [hnidj, validateStr_ok hvnid, hnid, hfid]


/-- C8 witness: a payload supplying an identifier yields a trial whose
`nct_id` is exactly that identifier. -/
theorem parse_single_trial_nct_id_witness :
    payloadNctId nct_payload = Except.ok (Json.str "NCT11112222") :=
  parse_single_trial_nct_id nct_payload nct_trial rfl

/-- C10: every trial the normalizer produces keeps `study_type` at its
model default "INTERVENTIONAL" and `enrollment`/`study_population` absent,
is therefore accepted by the classifier's first rule, and filtering any
list of normalizer-produced trials is the identity. -/
theorem normalized_trials_all_interventional :
    (∀ j t, _parse_single_trial j = some t →
      t.study_type = "INTERVENTIONAL" ∧ t.enrollment = none ∧
      t.study_population = none ∧ _is_interventional_trial t = true) ∧
    (∀ studies : List Json,
      filter_interventional_trials (studies.filterMap _parse_single_trial) =
        studies.filterMap _parse_single_trial) := by
  have hkey : ∀ j t, _parse_single_trial j = some t →
      t.study_type = "INTERVENTIONAL" ∧ t.enrollment = none ∧
      t.study_population = none ∧ _is_interventional_trial t = true := by
    intro j t h
    unfold _parse_single_trial at h
    cases hx : extractFields j with
    | error e => rw [hx] at h; exact absurd h (by simp)
    | ok f =>
      rw [hx] at h
      simp only [Option.some.injEq] at h
      subst h
      exact ⟨rfl, rfl, rfl, interventional_of_study_type rfl⟩
  refine ⟨hkey, ?_⟩
  intro studies
  induction studies with
  | nil => rfl
  | cons j rest ih =>
    rw [List.filterMap_cons]
    cases hj : _parse_single_trial j with
    | none => exact ih
    | some t =>
      unfold filter_interventional_trials
      rw [(hkey j t hj).2.2.2, if_pos rfl, ih]

/-- C10 witness: the empty payload's trial keeps the defaults and passes
the classifier. -/
theorem normalized_trials_all_interventional_witness :
    empty_payload_trial.study_type = "INTERVENTIONAL" ∧
    empty_payload_trial.enrollment = none ∧
    empty_payload_trial.study_population = none ∧
    _is_interventional_trial empty_payload_trial = true :=
  normalized_trials_all_interventional.1 (Json.obj []) empty_payload_trial rfl

/-! ## Characterization of the date parser -/

theorem digitsVal_one (a : Char) : digitsVal [a] = dval a := by
  simp [digitsVal]

theorem digitsVal_two (a b : Char) : digitsVal [a, b] = 10 * dval a + dval b := by
  simp [digitsVal]

theorem digitsVal_four (a b c d : Char) :
    digitsVal [a, b, c, d] = 1000 * dval a + 100 * dval b + 10 * dval c + dval d := by
  simp [digitsVal, List.foldl]
  ring

theorem dval_le_nine {c : Char} (h : isDig c = true) : dval c ≤ 9 := by
  simp only [isDig, Bool.and_eq_true, decide_eq_true_eq] at h
  unfold dval
  omega

theorem isDig_ne_dash {c : Char} (h : isDig c = true) : ¬c = '-' := by
  intro he
  subst he
  revert h
  decide

theorem daysInMonth_le_31 (y m : Nat) : daysInMonth y m ≤ 31 := by
  unfold daysInMonth
  split_ifs <;> omega

theorem splitDash_ne_nil (cs : List Char) : splitDash cs ≠ [] := by
  cases cs with
  | nil => simp [splitDash]
  | cons c rest =>
    simp only [splitDash]
    by_cases h : c = '-'
    · simp [h]
    · simp only [h, if_false]
      cases hs : splitDash rest <;> simp

theorem splitDash_all_digits {cs : List Char} (h : cs.all isDig = true) :
    splitDash cs = [cs] := by
  induction cs with
  | nil => rfl
  | cons c rest ih =>
    simp only [List.all_cons, Bool.and_eq_true] at h
    simp only [splitDash, if_neg (isDig_ne_dash h.1), ih h.2]

theorem splitDash_append {t : List Char} (u : List Char) (h : t.all isDig = true) :
    splitDash (t ++ '-' :: u) = t :: splitDash u := by
  induction t with
  | nil => simp [splitDash]
  | cons c rest ih =>
    simp only [List.all_cons, Bool.and_eq_true] at h
    simp only [List.cons_append, splitDash, if_neg (isDig_ne_dash h.1),
      List.append_eq, ih h.2]

theorem joinDash_splitDash (cs : List Char) : joinDash (splitDash cs) = cs := by
  induction cs with
  | nil => rfl
  | cons c rest ih =>
    simp only [splitDash]
    by_cases h : c = '-'
    · subst h
      rw [if_pos rfl]
      cases hs : splitDash rest with
      | nil => exact absurd hs (splitDash_ne_nil rest)
      | cons g gs =>
        rw [hs] at ih
        cases gs with
        | nil => simp only [joinDash] at ih ⊢; rw [ih]; rfl
        | cons g2 gs2 => simp only [joinDash] at ih ⊢; rw [ih]; rfl
    · rw [if_neg h]
      cases hs : splitDash rest with
      | nil => exact absurd hs (splitDash_ne_nil rest)
      | cons g gs =>
        rw [hs] at ih
        cases gs with
        | nil => simp only [joinDash] at ih ⊢; rw [ih]
        | cons g2 gs2 =>
          simp only [joinDash] at ih ⊢
          rw [← ih]
          simp

theorem read4_ok {cs : List Char} {y : Nat} {rest : List Char}
    (h : read4 cs = some (y, rest)) :
    ∃ t, cs = t ++ rest ∧ year_token t = true ∧ digitsVal t = y := by
  unfold read4 at h
  split at h
  · next a b c d rs =>
    split at h
    · next hd =>
      simp only [Option.some.injEq, Prod.mk.injEq] at h
      obtain ⟨hy, hr⟩ := h
      subst hr
      simp only [Bool.and_eq_true] at hd
      obtain ⟨⟨⟨ha, hb⟩, hc⟩, hd4⟩ := hd
      refine ⟨[a, b, c, d], rfl, ?_, by rw [digitsVal_four]; omega⟩
      simp [year_token, ha, hb, hc, hd4]
    · exact absurd h (by simp)
  · next => exact absurd h (by simp)

theorem read4_token {t : List Char} (rest : List Char) (h : year_token t = true) :
    read4 (t ++ rest) = some (digitsVal t, rest) := by
  simp only [year_token, Bool.and_eq_true, decide_eq_true_eq] at h
  obtain ⟨hlen, hall⟩ := h
  rcases t with _ | ⟨a, _ | ⟨b, _ | ⟨c, _ | ⟨d, _ | ⟨e, t5⟩⟩⟩⟩⟩ <;> simp at hlen
  simp only [List.all_cons, List.all_nil, Bool.and_eq_true, Bool.and_true] at hall
  obtain ⟨ha, hb, hc, hd⟩ := hall
  simp only [List.cons_append, List.nil_append, read4, ha, hb, hc, hd,
    Bool.and_self, if_true]
  rw [digitsVal_four]

theorem read_m_some_inv {r : List Char} {m : Nat} {rest : List Char}
    (h : read_m r = some (m, rest)) :
    ∃ tok, r = tok ++ rest ∧ month_token tok = true ∧ digitsVal tok = m := by
  unfold read_m at h
  split at h
  · exact absurd h (by simp)
  · next a =>
    split at h
    · next hc =>
      rw [Option.some.injEq, Prod.mk.injEq] at h
      obtain ⟨hm, hr⟩ := h
      subst hr
      subst hm
      simp only [Bool.and_eq_true, decide_eq_true_eq] at hc
      have h9 := dval_le_nine hc.1
      refine ⟨[a], by simp, ?_, digitsVal_one a⟩
      simp [month_token, digitsVal_one, hc.1]
      omega
    · exact absurd h (by simp)
  · next a b rs =>
    split at h
    · next hc =>
      rw [Option.some.injEq, Prod.mk.injEq] at h
      obtain ⟨hm, hr⟩ := h
      subst hr
      subst hm
      simp only [Bool.and_eq_true, decide_eq_true_eq] at hc
      obtain ⟨⟨⟨ha, hb⟩, h1⟩, h2⟩ := hc
      refine ⟨[a, b], by simp, ?_, by rw [digitsVal_two]; omega⟩
      simp [month_token, digitsVal_two, ha, hb]
      omega
    · split at h
      · next hc =>
        rw [Option.some.injEq, Prod.mk.injEq] at h
        obtain ⟨hm, hr⟩ := h
        subst hr
        subst hm
        simp only [Bool.and_eq_true, decide_eq_true_eq] at hc
        obtain ⟨⟨⟨ha, hb⟩, h0⟩, h1⟩ := hc
        have h9 := dval_le_nine hb
        refine ⟨[a, b], by simp, ?_, by rw [digitsVal_two]; omega⟩
        simp [month_token, digitsVal_two, ha, hb]
        omega
      · split at h
        · next hc =>
          rw [Option.some.injEq, Prod.mk.injEq] at h
          obtain ⟨hm, hr⟩ := h
          subst hr
          subst hm
          simp only [Bool.and_eq_true, decide_eq_true_eq] at hc
          have h9 := dval_le_nine hc.1
          refine ⟨[a], by simp, ?_, digitsVal_one a⟩
          simp [month_token, digitsVal_one, hc.1]
          omega
        · exact absurd h (by simp)

theorem read_m_append (tok : List Char) (rest : List Char)
    (htok : month_token tok = true)
    (hrest : rest = [] ∨ ∃ r2, rest = '-' :: r2) :
    read_m (tok ++ rest) = some (digitsVal tok, rest) := by
  simp only [month_token, Bool.and_eq_true, decide_eq_true_eq] at htok
  obtain ⟨⟨⟨hall, hlen⟩, hlo⟩, hhi⟩ := htok
  simp only [Bool.or_eq_true, decide_eq_true_eq] at hlen
  rcases tok with _ | ⟨a, _ | ⟨b, _ | ⟨c, t3⟩⟩⟩
  · simp at hlen
  · simp only [List.all_cons, List.all_nil, Bool.and_true] at hall
    rw [digitsVal_one] at hlo hhi ⊢
    rcases hrest with hr | ⟨r2, hr⟩ <;> subst hr
    · simp [read_m, hall, hlo]
    · have hnd : isDig '-' = false := by decide
      simp [read_m, hall, hnd, hlo]
  · simp only [List.all_cons, List.all_nil, Bool.and_true, Bool.and_eq_true] at hall
    obtain ⟨ha, hb⟩ := hall
    rw [digitsVal_two] at hlo hhi ⊢
    have h9a := dval_le_nine ha
    have h9b := dval_le_nine hb
    by_cases hda : dval a = 1
    · have hb2 : dval b ≤ 2 := by omega
      simp [read_m, ha, hb, hda, hb2]
    · have hda0 : dval a = 0 := by omega
      have hb1 : 1 ≤ dval b := by omega
      simp [read_m, ha, hb, hda, hda0, hb1]
  · simp at hlen

theorem read_d_some_inv {r : List Char} {m : Nat} {rest : List Char}
    (h : read_d r = some (m, rest)) :
    ∃ tok, r = tok ++ rest ∧ day_token tok = true ∧ digitsVal tok = m := by
  unfold read_d at h
  split at h
  · exact absurd h (by simp)
  · next a =>
    split at h
    · next hc =>
      rw [Option.some.injEq, Prod.mk.injEq] at h
      obtain ⟨hm, hr⟩ := h
      subst hr
      subst hm
      simp only [Bool.and_eq_true, decide_eq_true_eq] at hc
      have h9 := dval_le_nine hc.1
      refine ⟨[a], by simp, ?_, digitsVal_one a⟩
      simp [day_token, digitsVal_one, hc.1]
      omega
    · exact absurd h (by simp)
  · next a b rs =>
    split at h
    · next hc =>
      rw [Option.some.injEq, Prod.mk.injEq] at h
      obtain ⟨hm, hr⟩ := h
      subst hr
      subst hm
      simp only [Bool.and_eq_true, decide_eq_true_eq] at hc
      obtain ⟨⟨⟨ha, hb⟩, h3⟩, h1⟩ := hc
      refine ⟨[a, b], by simp, ?_, by rw [digitsVal_two]; omega⟩
      simp [day_token, digitsVal_two, ha, hb]
      omega
    · split at h
      · next hc =>
        rw [Option.some.injEq, Prod.mk.injEq] at h
        obtain ⟨hm, hr⟩ := h
        subst hr
        subst hm
        simp only [Bool.and_eq_true, decide_eq_true_eq] at hc
        obtain ⟨⟨⟨ha, hb⟩, h1⟩, h2⟩ := hc
        have h9b := dval_le_nine hb
        refine ⟨[a, b], by simp, ?_, digitsVal_two a b⟩
        simp [day_token, digitsVal_two, ha, hb]
        omega
      · split at h
        · next hc =>
          rw [Option.some.injEq, Prod.mk.injEq] at h
          obtain ⟨hm, hr⟩ := h
          subst hr
          subst hm
          simp only [Bool.and_eq_true, decide_eq_true_eq] at hc
          obtain ⟨⟨⟨ha, hb⟩, h0⟩, h1⟩ := hc
          have h9b := dval_le_nine hb
          refine ⟨[a, b], by simp, ?_, by rw [digitsVal_two]; omega⟩
          simp [day_token, digitsVal_two, ha, hb]
          omega
        · split at h
          · next hc =>
            rw [Option.some.injEq, Prod.mk.injEq] at h
            obtain ⟨hm, hr⟩ := h
            subst hr
            subst hm
            simp only [Bool.and_eq_true, decide_eq_true_eq] at hc
            have h9 := dval_le_nine hc.1
            refine ⟨[a], by simp, ?_, digitsVal_one a⟩
            simp [day_token, digitsVal_one, hc.1]
            omega
          · exact absurd h (by simp)

theorem read_d_full (tok : List Char) (htok : day_token tok = true) :
    read_d tok = some (digitsVal tok, []) := by
  simp only [day_token, Bool.and_eq_true, decide_eq_true_eq] at htok
  obtain ⟨⟨⟨hall, hlen⟩, hlo⟩, hhi⟩ := htok
  simp only [Bool.or_eq_true, decide_eq_true_eq] at hlen
  rcases tok with _ | ⟨a, _ | ⟨b, _ | ⟨c, t3⟩⟩⟩
  · simp at hlen
  · simp only [List.all_cons, List.all_nil, Bool.and_true] at hall
    rw [digitsVal_one] at hlo ⊢
    simp [read_d, hall, hlo]
  · simp only [List.all_cons, List.all_nil, Bool.and_true, Bool.and_eq_true] at hall
    obtain ⟨ha, hb⟩ := hall
    rw [digitsVal_two] at hlo hhi ⊢
    have h9a := dval_le_nine ha
    have h9b := dval_le_nine hb
    by_cases hda3 : dval a = 3
    · have hb1 : dval b ≤ 1 := by omega
      simp [read_d, ha, hb, hda3, hb1]
    · by_cases hda12 : 1 ≤ dval a ∧ dval a ≤ 2
      · simp [read_d, ha, hb, hda3, hda12.1, hda12.2]
      · have hda0 : dval a = 0 := by omega
        have hb1 : 1 ≤ dval b := by omega
        simp [read_d, ha, hb, hda3, hda0, hb1]
  · simp at hlen

theorem strptime_Y_some_iff {cs : List Char} :
    (strptime_Y cs).isSome = true ↔
      (year_token cs = true ∧ 1 ≤ digitsVal cs) := by
  constructor
  · intro h
    rw [Option.isSome_iff_exists] at h
    obtain ⟨dt, hdt⟩ := h
    unfold strptime_Y at hdt
    split at hdt
    · next y heq =>
      split at hdt
      · next hy =>
        obtain ⟨t, hts, htok, hval⟩ := read4_ok heq
        rw [List.append_nil] at hts
        subst hts
        exact ⟨htok, by rw [hval]; exact hy⟩
      · exact absurd hdt (by simp)
    · exact absurd hdt (by simp)
  · rintro ⟨htok, hval⟩
    have h4 := read4_token [] htok
    rw [List.append_nil] at h4
    unfold strptime_Y
    rw [h4]
    simp [hval]

theorem strptime_Y_m_some_iff {cs : List Char} :
    (strptime_Y_m cs).isSome = true ↔
      ∃ y m, cs = y ++ '-' :: m ∧ year_token y = true ∧ 1 ≤ digitsVal y ∧
        month_token m = true := by
  constructor
  · intro h
    rw [Option.isSome_iff_exists] at h
    obtain ⟨dt, hdt⟩ := h
    unfold strptime_Y_m at hdt
    split at hdt
    · next y r1 heq =>
      split at hdt
      · next mv heq2 =>
        split at hdt
        · next hy =>
          obtain ⟨t, hts, htok, hval⟩ := read4_ok heq
          obtain ⟨tokm, htm, htokm, hvalm⟩ := read_m_some_inv heq2
          rw [List.append_nil] at htm
          subst htm
          subst hts
          exact ⟨t, r1, rfl, htok, by rw [hval]; exact hy, htokm⟩
        · exact absurd hdt (by simp)
      · exact absurd hdt (by simp)
    · exact absurd hdt (by simp)
  · rintro ⟨y, m, hcs, htoky, hvaly, htokm⟩
    subst hcs
    unfold strptime_Y_m
    rw [read4_token ('-' :: m) htoky]
    split
    · next y' r1 heq =>
      simp only [Option.some.injEq, Prod.mk.injEq, List.cons.injEq, true_and] at heq
      obtain ⟨hy', hr1⟩ := heq
      subst hy'
      subst hr1
      have hm := read_m_append m [] htokm (Or.inl rfl)
      rw [List.append_nil] at hm
      rw [hm]
      simp [hvaly]
    · next hne => exact absurd rfl (hne (digitsVal y) m)

theorem strptime_Y_m_d_some_iff {cs : List Char} :
    (strptime_Y_m_d cs).isSome = true ↔
      ∃ y m d, cs = y ++ '-' :: (m ++ '-' :: d) ∧ year_token y = true ∧
        1 ≤ digitsVal y ∧ month_token m = true ∧ day_token d = true ∧
        digitsVal d ≤ daysInMonth (digitsVal y) (digitsVal m) := by
  constructor
  · intro h
    rw [Option.isSome_iff_exists] at h
    obtain ⟨dt, hdt⟩ := h
    unfold strptime_Y_m_d at hdt
    split at hdt
    · next y r1 heq =>
      split at hdt
      · next mv r2 heq2 =>
        split at hdt
        · next dv heq3 =>
          split at hdt
          · next hcond =>
            simp only [Bool.and_eq_true, decide_eq_true_eq] at hcond
            obtain ⟨t, hts, htok, hval⟩ := read4_ok heq
            obtain ⟨tokm, htm, htokm, hvalm⟩ := read_m_some_inv heq2
            obtain ⟨tokd, htd, htokd, hvald⟩ := read_d_some_inv heq3
            rw [List.append_nil] at htd
            subst htd
            subst htm
            subst hts
            refine ⟨t, tokm, r2, rfl, htok, by rw [hval]; exact hcond.1, htokm,
              htokd, ?_⟩
            rw [hval, hvalm, hvald]
            exact hcond.2
          · exact absurd hdt (by simp)
        · exact absurd hdt (by simp)
      · exact absurd hdt (by simp)
    · exact absurd hdt (by simp)
  · rintro ⟨y, m, d, hcs, htoky, hvaly, htokm, htokd, hle⟩
    subst hcs
    unfold strptime_Y_m_d
    rw [read4_token ('-' :: (m ++ '-' :: d)) htoky]
    split
    · next y' r1 heq =>
      simp only [Option.some.injEq, Prod.mk.injEq, List.cons.injEq, true_and] at heq
      obtain ⟨hy', hr1⟩ := heq
      subst hy'
      subst hr1
      rw [read_m_append m ('-' :: d) htokm (Or.inr ⟨d, rfl⟩)]
      split
      · next m' r2 heq2 =>
        simp only [Option.some.injEq, Prod.mk.injEq, List.cons.injEq, true_and] at heq2
        obtain ⟨hm', hr2⟩ := heq2
        subst hm'
        subst hr2
        rw [read_d_full d htokd]
        split
        · next d' heq3 =>
          simp only [Option.some.injEq, Prod.mk.injEq] at heq3
          obtain ⟨hd', -⟩ := heq3
          subst hd'
          simp [hvaly, hle]
        · next hne => exact absurd rfl (hne (digitsVal d))
      · next hne => exact absurd rfl (hne (digitsVal m) d)
    · next hne => exact absurd rfl (hne (digitsVal y) (m ++ '-' :: d))

theorem year_token_digits {t : List Char} (h : year_token t = true) :
    t.all isDig = true := by
  simp only [year_token, Bool.and_eq_true] at h
  exact h.2

theorem month_token_digits {t : List Char} (h : month_token t = true) :
    t.all isDig = true := by
  simp only [month_token, Bool.and_eq_true] at h
  exact h.1.1.1

theorem day_token_digits {t : List Char} (h : day_token t = true) :
    t.all isDig = true := by
  simp only [day_token, Bool.and_eq_true] at h
  exact h.1.1.1

theorem parse_date_str_isSome {s : String} (h : ¬s = "") :
    (_parse_date (Json.str s)).isSome =
      ((strptime_Y_m_d s.data).isSome || (strptime_Y_m s.data).isSome ||
        (strptime_Y s.data).isSome) := by
  have hb : (s == "") = false := by simpa using h
  simp only [_parse_date]
  rw [hb]
  simp only [Bool.false_eq_true, if_false]
  cases strptime_Y_m_d s.data <;> cases strptime_Y_m s.data <;> simp

/-- The operational date parser accepts exactly the strings of
`lenient_date_form`. -/
theorem parse_date_lenient (s : String) :
    (_parse_date (Json.str s)).isSome = lenient_date_form s := by
  by_cases hs : s = ""
  · subst hs; decide
  · rw [parse_date_str_isSome hs]
    cases hl : lenient_date_form s with
    | true =>
      unfold lenient_date_form at hl
      split at hl
      · next y hsp =>
        have hj := joinDash_splitDash s.data
        rw [hsp] at hj
        simp only [joinDash] at hj
        simp only [Bool.and_eq_true, decide_eq_true_eq] at hl
        have hY : (strptime_Y s.data).isSome = true :=
          strptime_Y_some_iff.mpr
            ⟨by rw [← hj]; exact hl.1, by rw [← hj]; exact hl.2⟩
        simp [hY]
      · next y m hsp =>
        have hj := joinDash_splitDash s.data
        rw [hsp] at hj
        simp only [joinDash] at hj
        simp only [Bool.and_eq_true, decide_eq_true_eq] at hl
        obtain ⟨⟨hy, h1⟩, hm⟩ := hl
        have hYm : (strptime_Y_m s.data).isSome = true :=
          strptime_Y_m_some_iff.mpr ⟨y, m, hj.symm, hy, h1, hm⟩
        simp [hYm]
      · next y m d hsp =>
        have hj := joinDash_splitDash s.data
        rw [hsp] at hj
        simp only [joinDash] at hj
        simp only [Bool.and_eq_true, decide_eq_true_eq] at hl
        obtain ⟨⟨⟨⟨hy, h1⟩, hm⟩, hd⟩, hle⟩ := hl
        have hYmd : (strptime_Y_m_d s.data).isSome = true :=
          strptime_Y_m_d_some_iff.mpr ⟨y, m, d, hj.symm, hy, h1, hm, hd, hle⟩
        simp [hYmd]
      · exact absurd hl (by simp)
    | false =>
      by_contra hcon
      rw [Bool.not_eq_false, Bool.or_eq_true, Bool.or_eq_true] at hcon
      rcases hcon with (hymd | hym) | hy
      · obtain ⟨y, m, d, hcs, hty, h1, htm, htd, hle⟩ :=
          strptime_Y_m_d_some_iff.mp hymd
        unfold lenient_date_form at hl
        rw [hcs, splitDash_append _ (year_token_digits hty),
          splitDash_append _ (month_token_digits htm),
          splitDash_all_digits (day_token_digits htd)] at hl
        simp [hty, h1, htm, htd, hle] at hl
      · obtain ⟨y, m, hcs, hty, h1, htm⟩ := strptime_Y_m_some_iff.mp hym
        unfold lenient_date_form at hl
        rw [hcs, splitDash_append _ (year_token_digits hty),
          splitDash_all_digits (month_token_digits htm)] at hl
        simp [hty, h1, htm] at hl
      · obtain ⟨hty, h1⟩ := strptime_Y_some_iff.mp hy
        unfold lenient_date_form at hl
        rw [splitDash_all_digits (year_token_digits hty)] at hl
        simp [hty, h1] at hl

/-- Every strict-form string is a lenient-form string. -/
theorem spec_date_form_lenient {s : String} (h : spec_date_form s = true) :
    lenient_date_form s = true := by
  unfold spec_date_form at h
  unfold lenient_date_form
  rcases hsp : splitDash s.data with _ | ⟨y, _ | ⟨m, _ | ⟨d, _ | ⟨e, rest⟩⟩⟩⟩ <;>
    rw [hsp] at h <;> simp only at h ⊢
  · exact absurd h (by simp)
  · exact h
  · simp only [Bool.and_eq_true, decide_eq_true_eq] at h ⊢
    obtain ⟨⟨⟨⟨hy, h1⟩, hmd⟩, hlo⟩, hhi⟩ := h
    refine ⟨⟨hy, h1⟩, ?_⟩
    simp only [month_token, Bool.and_eq_true, decide_eq_true_eq,
      Bool.or_eq_true]
    exact ⟨⟨⟨hmd.1, Or.inr hmd.2⟩, hlo⟩, hhi⟩
  · simp only [Bool.and_eq_true, decide_eq_true_eq] at h ⊢
    obtain ⟨⟨⟨⟨⟨⟨⟨hy, h1⟩, hmd⟩, hmlo⟩, hmhi⟩, hdd⟩, hdlo⟩, hdhi⟩ := h
    refine ⟨⟨⟨⟨hy, h1⟩, ?_⟩, ?_⟩, hdhi⟩
    · simp only [month_token, Bool.and_eq_true, decide_eq_true_eq,
        Bool.or_eq_true]
      exact ⟨⟨⟨hmd.1, Or.inr hmd.2⟩, hmlo⟩, hmhi⟩
    · simp only [day_token, Bool.and_eq_true, decide_eq_true_eq,
        Bool.or_eq_true]
      have h31 := daysInMonth_le_31 (digitsVal y) (digitsVal m)
      exact ⟨⟨⟨hdd.1, Or.inr hdd.2⟩, hdlo⟩, by omega⟩
  · exact absurd h (by simp)

/-- C1 counterexample: "2020-1" is not of the form YYYY, YYYY-MM or
YYYY-MM-DD, yet the parser returns a date for it (Python's strptime
accepts a single-digit month), so "returns null for every other string"
fails as stated. -/
theorem parse_date_unpadded_cex :
    spec_date_form "2020-1" = false ∧
    _parse_date (Json.str "2020-1") = some ⟨2020, 1, 1⟩ :=
  ⟨by decide, by decide⟩

/-- C1 amended: the date parser returns a date exactly for the strings of
`lenient_date_form` — a 4-digit year (at least 0001), optionally a dash and
a 1-or-2-digit month in 1..12, optionally a further dash and a
1-or-2-digit day valid for that month and year, i.e. the three claimed
forms plus their variants with unpadded single-digit month or day; it
returns null for every other string, for every valid string of the three
zero-padded forms it returns a date, and it returns null on null/absent
input.  Being a total function of the embedding, it raises nothing. -/
theorem parse_date_characterization :
    (∀ s : String, (_parse_date (Json.str s)).isSome = lenient_date_form s) ∧
    (∀ s : String, spec_date_form s = true →
      (_parse_date (Json.str s)).isSome = true) ∧
    _parse_date Json.null = none := by
  refine ⟨parse_date_lenient, ?_, rfl⟩
  intro s h
  rw [parse_date_lenient]
  exact spec_date_form_lenient h

/-- C1 witness: the strictly formed string "2020-01-15" is parsed. -/
theorem parse_date_characterization_witness :
    spec_date_form "2020-01-15" = true ∧
    (_parse_date (Json.str "2020-01-15")).isSome = true :=
  ⟨by decide, parse_date_characterization.2.1 "2020-01-15" (by decide)⟩

end DataScraper
